import Mathlib

/-!
Verification development for the `bitnami` helmfile-to-compose transform
(`src/bitnami.py`).  The Python module is shallowly embedded below:

* Python strings are Lean `String`s; `pat in s`, `s.replace(pat, rep)` and
  `s.strip("-")` are modelled character-exactly (`replace` removes **all**
  non-overlapping occurrences, left to right, as in Python).
* A Python `dict` is an insertion-ordered association list (`Dict`): item
  assignment replaces the value in place when the key exists and appends
  otherwise; `del` removes the entry; iteration follows list order.
* `base64.b64decode(..., validate=False)` is modelled by `a2bBase64`
  following CPython's non-strict `binascii.a2b_base64`: characters outside
  the base64 alphabet are discarded, `=` padding may terminate decoding
  early, a dangling quad is an error.  `bytes.decode("utf-8")` is the
  strict RFC-3629 decoder `utf8Decode`.  Failures are `none` (the Python
  code catches `ValueError`/`UnicodeDecodeError`, both of which cover
  `binascii.Error` and the ascii-encode failure inside `b64decode`).
* Writing a line to stderr (`_log`) is modelled by returning the list of
  formatted log lines alongside the result.
* A raised `KeyError` in `transform` is modelled by `Except.error`.
-/

namespace Bitnami

/-- Does `p` occur at the very start of `s`? (lists of characters). -/
def startsWithL : List Char → List Char → Bool
  | [], _ => true
  | _ :: _, [] => false
  | p :: ps, c :: cs => p == c && startsWithL ps cs

/-- Substring containment on character lists: Python `p in s`. -/
def containsSubL : List Char → List Char → Bool
  | [], p => startsWithL p []
  | c :: cs, p => startsWithL p (c :: cs) || containsSubL cs p

/-- Fuelled worker for `replaceAllL`; `fuel ≥ s.length` makes it total.
Replaces every non-overlapping occurrence of `p` left to right, exactly
like Python `str.replace` for a non-empty pattern. -/
def replaceAllGo : Nat → List Char → List Char → List Char → List Char
  | 0, s, _, _ => s
  | _ + 1, [], _, _ => []
  | fuel + 1, c :: cs, p, r =>
    if !p.isEmpty && startsWithL p (c :: cs) then
      r ++ replaceAllGo fuel (List.drop (p.length - 1) cs) p r
    else
      c :: replaceAllGo fuel cs p r

/-- Python `s.replace(p, r)` on character lists (for non-empty `p`). -/
def replaceAllL (s p r : List Char) : List Char :=
  replaceAllGo s.length s p r

/-- Python `pat in s`. -/
def subIn (pat s : String) : Bool :=
  containsSubL s.data pat.data

/-- Python `s.replace(pat, rep)` (all occurrences, non-overlapping). -/
def pyReplace (s pat rep : String) : String :=
  ⟨replaceAllL s.data pat.data rep.data⟩

/-- Python `s.strip(c)` for a single strip character. -/
def pyStrip (s : String) (c : Char) : String :=
  ⟨(((s.data.dropWhile (· == c)).reverse.dropWhile (· == c)).reverse)⟩

/-- Insertion-ordered string-keyed mapping: the shallow embedding of a
Python `dict`. -/
abbrev Dict (α : Type) : Type := List (String × α)

/-- `d[k]` / `d.get(k)`: value at the key, if present. -/
def Dict.lookup {α : Type} : Dict α → String → Option α
  | [], _ => none
  | (k, v) :: d, key => if k = key then some v else Dict.lookup d key

/-- Python `k in d`. -/
def Dict.member {α : Type} (d : Dict α) (k : String) : Bool :=
  (Dict.lookup d k).isSome

/-- Python `d[k] = v`: replace in place when present, append otherwise. -/
def Dict.set {α : Type} : Dict α → String → α → Dict α
  | [], key, v => [(key, v)]
  | (k, w) :: d, key, v =>
    if k = key then (key, v) :: d else (k, w) :: Dict.set d key v

/-- Python `del d[k]`: drop the entry at the key, keep the rest. -/
def Dict.erase {α : Type} : Dict α → String → Dict α
  | [], _ => []
  | (k0, v) :: d, k => if k0 = k then Dict.erase d k else (k0, v) :: Dict.erase d k

/-- Python `list(d)`: the keys in insertion order. -/
def Dict.keys {α : Type} (d : Dict α) : List String :=
  d.map (·.1)

/-- Value of one base64 alphabet character (CPython `table_a2b_base64`). -/
def b64charVal (c : Char) : Option Nat :=
  let n := c.toNat
  if 65 ≤ n ∧ n ≤ 90 then some (n - 65)
  else if 97 ≤ n ∧ n ≤ 122 then some (n - 97 + 26)
  else if 48 ≤ n ∧ n ≤ 57 then some (n - 48 + 52)
  else if c = '+' then some 62
  else if c = '/' then some 63
  else none

/-- CPython non-strict `binascii.a2b_base64` (what
`base64.b64decode(s)` calls): characters outside the alphabet are
skipped, `=` is counted as padding only once two data characters of the
current quad are present, enough padding ends decoding successfully, and
a dangling quad at the end is an error (`none`).  Arguments after the
input are the quad position, the pending bits and the padding count. -/
def a2bBase64 : List Char → Nat → Nat → Nat → Option (List Nat)
  | [], qp, _, _ => if qp = 0 then some [] else none
  | c :: rest, qp, lc, pads =>
    if c = '=' then
      if 2 ≤ qp then
        if 4 ≤ qp + (pads + 1) then some []
        else a2bBase64 rest qp lc (pads + 1)
      else a2bBase64 rest qp lc pads
    else
      match b64charVal c with
      | none => a2bBase64 rest qp lc pads
      | some v =>
        match qp with
        | 0 => a2bBase64 rest 1 v 0
        | 1 => (a2bBase64 rest 2 (v % 16) 0).map (fun bs => (lc * 4 + v / 16) :: bs)
        | 2 => (a2bBase64 rest 3 (v % 4) 0).map (fun bs => (lc * 16 + v / 4) :: bs)
        | _ => (a2bBase64 rest 0 0 0).map (fun bs => (lc * 64 + v) :: bs)

/-- Is `b` a UTF-8 continuation byte? -/
def isContByte (b : Nat) : Bool :=
  128 ≤ b && b ≤ 191

/-- Strict UTF-8 decoding of a byte list (Python `bytes.decode("utf-8")`):
rejects truncated sequences, overlong encodings, surrogates and
codepoints above U+10FFFF. -/
def utf8Decode : List Nat → Option (List Char)
  | [] => some []
  | b :: rest =>
    if b < 128 then
      (utf8Decode rest).map (fun cs => Char.ofNat b :: cs)
    else if 194 ≤ b && b ≤ 223 then
      match rest with
      | b1 :: rest1 =>
        if isContByte b1 then
          (utf8Decode rest1).map (fun cs => Char.ofNat ((b - 192) * 64 + (b1 - 128)) :: cs)
        else none
      | [] => none
    else if 224 ≤ b && b ≤ 239 then
      match rest with
      | b1 :: b2 :: rest2 =>
        if (if b = 224 then 160 ≤ b1 && b1 ≤ 191
            else if b = 237 then 128 ≤ b1 && b1 ≤ 159
            else isContByte b1) && isContByte b2 then
          (utf8Decode rest2).map
            (fun cs => Char.ofNat ((b - 224) * 4096 + (b1 - 128) * 64 + (b2 - 128)) :: cs)
        else none
      | _ => none
    else if 240 ≤ b && b ≤ 244 then
      match rest with
      | b1 :: b2 :: b3 :: rest3 =>
        if (if b = 240 then 144 ≤ b1 && b1 ≤ 191
            else if b = 244 then 128 ≤ b1 && b1 ≤ 143
            else isContByte b1) && isContByte b2 && isContByte b3 then
          (utf8Decode rest3).map
            (fun cs =>
              Char.ofNat ((b - 240) * 262144 + (b1 - 128) * 4096 + (b2 - 128) * 64 + (b3 - 128)) :: cs)
        else none
      | _ => none
    else none

/-- Python `base64.b64decode(s).decode("utf-8")` as used by the source:
`none` models any caught exception (non-ASCII input to the ascii encode
inside `b64decode`, a `binascii.Error`, or a `UnicodeDecodeError`). -/
def b64decodeStr (s : String) : Option String :=
  if s.data.any (fun c => 128 ≤ c.toNat) then none
  else (a2bBase64 s.data 0 0 0).bind (fun bs => (utf8Decode bs).map (fun cs => ⟨cs⟩))

/-- A Kubernetes Secret manifest, reduced to the two sub-mappings the
source reads (`secret.get("stringData")`, `secret.get("data")`); `none`
models a missing sub-mapping (Python `or {}` also flattens an explicit
`None`). -/
structure SecretRecord where
  stringData : Option (Dict String)
  data : Option (Dict String)
  deriving Repr, DecidableEq

/-- Python truthiness of a Secret dict (`if secret:`): the record is
truthy when it carries at least one sub-mapping, falsy when it is the
empty dict `{}`. -/
def secretNonEmpty (secret : SecretRecord) : Bool :=
  secret.stringData.isSome || secret.data.isSome

/-- `_secret_value`: decode a value from a K8s Secret manifest —
`stringData` first, then `data` with base64 decoding, falling back to the
raw encoded string when decoding raises. -/
def secret_value (secret : SecretRecord) (key : String) : Option String :=
  match Dict.lookup (secret.stringData.getD []) key with
  | some v => some v
  | none =>
    match Dict.lookup (secret.data.getD []) key with
    | some v =>
      match b64decodeStr v with
      | some decoded => some decoded
      | none => some v
    | none => none

/-- One compose Service Definition, reduced to the five fields the source
reads or writes.  `image` is optional because the source uses
`svc.get("image", "")`. -/
structure ServiceDef where
  image : Option String
  entrypoint : Option String := none
  command : Option (List String) := none
  volumes : Option (List String) := none
  environment : Option (Dict String) := none
  deriving Repr, DecidableEq

/-- `_is_bitnami_image`: does the service's image mention both `bitnami`
and the family fragment? -/
def is_bitnami_image (svc : ServiceDef) (name_fragment : String) : Bool :=
  subIn "bitnami" (svc.image.getD "") && subIn name_fragment (svc.image.getD "")

/-- `_find_secret`: first candidate name present in the store, with its
record; `none` models the Python `(None, None)`. -/
def find_secret (secrets : Dict SecretRecord) : List String → Option (String × SecretRecord)
  | [] => none
  | name :: rest =>
    match Dict.lookup secrets name with
    | some record => some (name, record)
    | none => find_secret secrets rest

/-- The configuration mapping inside the Run Context: the two keys the
source reads (`volume_root`, and the key set of `overrides`). -/
structure Config where
  volume_root : Option String := none
  overrides : List String := []
  deriving Repr, DecidableEq

/-- The Run Context (`ctx`): the Secret Store plus configuration. -/
structure Ctx where
  secrets : Dict SecretRecord := []
  config : Config := {}
  deriving Repr, DecidableEq

/-- `_log` formatting: the line written to stderr. -/
def logLine (msg : String) : String :=
  "  [bitnami] " ++ msg

/-- The naming stem `_fix_redis` computes (Python variable `prefix`):
all occurrences of `"-redis-master"` removed, then all occurrences of
`"-master"`. -/
def redis_stem (svc_name : String) : String :=
  pyReplace (pyReplace svc_name "-redis-master" "") "-master" ""

/-- The candidate secret names `_fix_redis` tries, most specific first. -/
def redis_candidates (svc_name : String) : List String :=
  [redis_stem svc_name ++ "-redis", redis_stem svc_name, svc_name]

/-- `_fix_redis`: replace Bitnami Redis with stock `redis:7-alpine`.
Returns the rewritten service and the emitted log lines. -/
def fix_redis (svc_name : String) (svc : ServiceDef) (ctx : Ctx) : ServiceDef × List String :=
  let found := find_secret ctx.secrets (redis_candidates svc_name)
  let password : Option String :=
    match found with
    | some (_, secret) =>
      if secretNonEmpty secret then secret_value secret "redis-password" else none
    | none => none
  let cmdLog : List String × String :=
    match password, found with
    | some pw, some (sec_name, _) =>
      if pw.isEmpty then
        (["redis-server"], logLine (svc_name ++ ": ⚠ no redis-password found, running without auth"))
      else
        (["redis-server", "--requirepass", pw],
         logLine (svc_name ++ ": password set from Secret \x27" ++ sec_name ++ "\x27"))
    | _, _ =>
      (["redis-server"], logLine (svc_name ++ ": ⚠ no redis-password found, running without auth"))
  let volume_root := ctx.config.volume_root.getD "./data"
  ({ svc with
      image := some "redis:7-alpine"
      entrypoint := none
      command := some cmdLog.1
      volumes := some [volume_root ++ "/" ++ svc_name ++ ":/data"]
      environment := none },
   [logLine (svc_name ++ ": image → redis:7-alpine"),
    logLine (svc_name ++ ": removed Bitnami entrypoint"),
    cmdLog.2,
    logLine (svc_name ++ ": volume → " ++ volume_root ++ "/" ++ svc_name ++ ":/data"),
    logLine (svc_name ++ ": removed Bitnami environment")])

/-- `_fix_postgresql`: fix Bitnami PostgreSQL volume mounts. -/
def fix_postgresql (svc_name : String) (svc : ServiceDef) (ctx : Ctx) : ServiceDef × List String :=
  let volume_root := ctx.config.volume_root.getD "./data"
  ({ svc with
      volumes := some
        [volume_root ++ "/" ++ svc_name ++ ":/bitnami/postgresql",
         "./secrets/" ++ svc_name ++ ":/opt/bitnami/postgresql/secrets:ro"] },
   [logLine (svc_name ++ ": data volume → /bitnami/postgresql"),
    logLine (svc_name ++ ": secrets mount → /opt/bitnami/postgresql/secrets")])

/-- The naming stem `_fix_keycloak` computes (Python variable `prefix`):
`"-keycloak"` then `"keycloak"` removed everywhere, `-` stripped at both
ends. -/
def keycloak_stem (svc_name : String) : String :=
  pyStrip (pyReplace (pyReplace svc_name "-keycloak" "") "keycloak" "") '-'

/-- The admin-secret candidates `_fix_keycloak` tries. -/
def keycloak_admin_candidates (svc_name : String) : List String :=
  if keycloak_stem svc_name ≠ "" then
    [keycloak_stem svc_name ++ "-keycloak", svc_name, "keycloak"]
  else
    [svc_name, "keycloak"]

/-- The database-secret candidates `_fix_keycloak` tries. -/
def keycloak_db_candidates (svc_name : String) : List String :=
  [(if keycloak_stem svc_name ≠ "" then keycloak_stem svc_name ++ "-postgresql"
    else "keycloak-postgresql"),
   "keycloak-postgresql"]

/-- The first block of `_fix_keycloak`: resolve the admin secret and, if
it yields a truthy `admin-password`, set `KC_BOOTSTRAP_ADMIN_PASSWORD`. -/
def keycloak_admin_step (svc_name : String) (svc : ServiceDef) (ctx : Ctx) :
    ServiceDef × List String :=
  match find_secret ctx.secrets (keycloak_admin_candidates svc_name) with
  | some (sec_name, secret) =>
    if secretNonEmpty secret then
      match secret_value secret "admin-password" with
      | some pw =>
        if pw.isEmpty then (svc, [])
        else
          let env1 := Dict.set (svc.environment.getD []) "KC_BOOTSTRAP_ADMIN_PASSWORD" pw
          ({ svc with environment := some env1 },
           [logLine (svc_name ++ ": KC_BOOTSTRAP_ADMIN_PASSWORD set from Secret \x27"
             ++ sec_name ++ "\x27")])
      | none => (svc, [])
    else (svc, [])
  | none => (svc, [])

/-- The second block of `_fix_keycloak`: resolve the database secret
and, if it yields a truthy `password`, set `KC_DB_PASSWORD`. -/
def keycloak_db_step (svc_name : String) (svc : ServiceDef) (ctx : Ctx) :
    ServiceDef × List String :=
  match find_secret ctx.secrets (keycloak_db_candidates svc_name) with
  | some (db_sec_name, db_secret) =>
    if secretNonEmpty db_secret then
      match secret_value db_secret "password" with
      | some pw =>
        if pw.isEmpty then (svc, [])
        else
          let env2 := Dict.set (svc.environment.getD []) "KC_DB_PASSWORD" pw
          ({ svc with environment := some env2 },
           [logLine (svc_name ++ ": KC_DB_PASSWORD set from Secret \x27"
             ++ db_sec_name ++ "\x27")])
      | none => (svc, [])
    else (svc, [])
  | none => (svc, [])

/-- `_fix_keycloak`: inject the admin and database passwords as
environment variables — the two blocks above in sequence.  Returns the
rewritten service and the log lines. -/
def fix_keycloak (svc_name : String) (svc : ServiceDef) (ctx : Ctx) : ServiceDef × List String :=
  let step1 := keycloak_admin_step svc_name svc ctx
  let step2 := keycloak_db_step svc_name step1.1 ctx
  (step2.1, step1.2 ++ step2.2)

/-- `_fix_keycloak_init`: delete every service whose name contains both
the keycloak-stripped fragment of `svc_name` and
`"init-prepare-write-dirs"`.  Returns the shrunken Service Set and the
log lines. -/
def fix_keycloak_init (svc_name : String) (compose_services : Dict ServiceDef) :
    Dict ServiceDef × List String :=
  let to_remove := (Dict.keys compose_services).filter
    (fun n => subIn (pyReplace svc_name "-keycloak" "") n && subIn "init-prepare-write-dirs" n)
  (to_remove.foldl (fun acc n => Dict.erase acc n) compose_services,
   to_remove.map (fun n => logLine (n ++ ": removed (emptyDir copy fails in compose)")))

/-- The loop body of `BitnamiWorkarounds.transform`: walk the snapshot of
service names, skipping user overrides and dispatching on the image
family.  `Except.error` models the `KeyError` raised by
`compose_services[svc_name]` when the snapshot entry was deleted
earlier in the run. -/
def transform_go (ctx : Ctx) : List String → Dict ServiceDef →
    Except String (Dict ServiceDef × List String)
  | [], compose_services => Except.ok (compose_services, [])
  | svc_name :: rest, compose_services =>
    if ctx.config.overrides.contains svc_name then
      transform_go ctx rest compose_services
    else
      match Dict.lookup compose_services svc_name with
      | none => Except.error ("KeyError: " ++ svc_name)
      | some svc =>
        if is_bitnami_image svc "redis" then
          Except.map (fun p => (p.1, (fix_redis svc_name svc ctx).2 ++ p.2))
            (transform_go ctx rest (Dict.set compose_services svc_name (fix_redis svc_name svc ctx).1))
        else if is_bitnami_image svc "postgresql" then
          Except.map (fun p => (p.1, (fix_postgresql svc_name svc ctx).2 ++ p.2))
            (transform_go ctx rest (Dict.set compose_services svc_name (fix_postgresql svc_name svc ctx).1))
        else if is_bitnami_image svc "keycloak" then
          Except.map (fun p => (p.1,
              (fix_keycloak svc_name svc ctx).2
                ++ (fix_keycloak_init svc_name
                      (Dict.set compose_services svc_name (fix_keycloak svc_name svc ctx).1)).2
                ++ p.2))
            (transform_go ctx rest
              (fix_keycloak_init svc_name
                (Dict.set compose_services svc_name (fix_keycloak svc_name svc ctx).1)).1)
        else
          transform_go ctx rest compose_services

/-- `BitnamiWorkarounds.transform`: apply the workarounds to every
service, iterating over a snapshot of the names (`list(compose_services)`).
The unused `ingress_entries` parameter of the Python method is omitted. -/
def transform (compose_services : Dict ServiceDef) (ctx : Ctx) :
    Except String (Dict ServiceDef × List String) :=
  transform_go ctx (Dict.keys compose_services) compose_services

/-- `BitnamiWorkarounds.name`. -/
def transform_name : String := "bitnami"

/-- `BitnamiWorkarounds.priority`. -/
def transform_priority : Nat := 1500

/-- Suffix test on character lists. -/
def endsWithL (s p : List Char) : Bool :=
  startsWithL p.reverse s.reverse

/-- Modelled from the spec's words, for comparison with `redis_stem`
(claim C3): strip the suffix `"-redis-master"`, or failing that the
suffix `"-master"` — first match wins, at most one suffix removed — and
a name ending in neither suffix yields itself. -/
def specSuffixStem (svc_name : String) : String :=
  if endsWithL svc_name.data ("-redis-master".data) then
    ⟨svc_name.data.take (svc_name.data.length - "-redis-master".data.length)⟩
  else if endsWithL svc_name.data ("-master".data) then
    ⟨svc_name.data.take (svc_name.data.length - "-master".data.length)⟩
  else svc_name

/-- Scenario inputs: the Bitnami Keycloak service of spec scenario C. -/
def keycloakSvc : ServiceDef := { image := some "bitnami/keycloak:23" }

/-- Scenario inputs: the companion init service of spec scenario C; its
image matches none of the three families. -/
def busyboxInit : ServiceDef := { image := some "busybox" }

/-- Scenario inputs: the Secret Store of spec scenario C. -/
def ctxScenarioC : Ctx :=
  { secrets := [("auth-keycloak", ⟨some [("admin-password", "adminpw")], none⟩),
                ("keycloak-postgresql", ⟨some [("password", "dbpw")], none⟩)] }

/-- Scenario inputs: scenario C's Service Set with the Keycloak service
first in insertion order. -/
def svcsKeycloakFirst : Dict ServiceDef :=
  [("auth-keycloak", keycloakSvc), ("auth-init-prepare-write-dirs", busyboxInit)]

/-- Scenario inputs: scenario C's Service Set with the companion init
service first in insertion order. -/
def svcsInitFirst : Dict ServiceDef :=
  [("auth-init-prepare-write-dirs", busyboxInit), ("auth-keycloak", keycloakSvc)]

/-- Scenario inputs: a Run Context whose user-overrides set lists the
companion init service. -/
def ctxOverrideCompanion : Ctx :=
  { config := { overrides := ["auth-init-prepare-write-dirs"] } }

/-- Scenario inputs: the Run Context of spec scenario A. -/
def ctxScenarioA : Ctx :=
  { secrets := [("cache-redis", ⟨some [("redis-password", "s3cret")], none⟩)] }

/-- Scenario inputs: the Service Set of spec scenario A. -/
def svcsScenarioA : Dict ServiceDef :=
  [("cache-redis-master", { image := some "bitnami/redis:7.2" })]

/-- Witness inputs: a Secret Store whose redis password is empty. -/
def ctxEmptyRedisPw : Ctx :=
  { secrets := [("app-redis", ⟨some [("redis-password", "")], none⟩)] }

/-- Witness inputs: a Secret Store whose keycloak admin password is
empty. -/
def ctxEmptyAdminPw : Ctx :=
  { secrets := [("auth-keycloak", ⟨some [("admin-password", "")], none⟩)] }

/-- Witness inputs: a Secret Store whose keycloak database secret is the
empty record. -/
def ctxEmptyDbRecord : Ctx :=
  { secrets := [("keycloak-postgresql", ⟨none, none⟩)] }

/-- Witness inputs: a Bitnami Redis service. -/
def svcRedisW : ServiceDef := { image := some "bitnami/redis:7" }

/-- Witness inputs: a Bitnami Keycloak service. -/
def svcKeycloakW : ServiceDef := { image := some "bitnami/keycloak:23" }

set_option maxRecDepth 10000

/-- Replacing a pattern that does not occur leaves the list unchanged. -/
theorem replaceAllGo_of_not_contains :
    ∀ (fuel : Nat) (s p r : List Char), containsSubL s p = false →
      replaceAllGo fuel s p r = s := by
  intro fuel
  induction fuel with
  | zero => intro s p r _; rfl
  | succ fuel ih =>
    intro s p r h
    cases s with
    | nil => rfl
    | cons c cs =>
      simp only [containsSubL, Bool.or_eq_false_iff] at h
      simp only [replaceAllGo, h.1, Bool.and_false, Bool.false_eq_true, if_false,
        List.cons.injEq, true_and]
      exact ih cs p r h.2

/-- Python `s.replace(pat, rep)` is the identity when `pat` does not
occur in `s`. -/
theorem pyReplace_of_not_contains (s pat rep : String) (h : subIn pat s = false) :
    pyReplace s pat rep = s := by
  unfold pyReplace replaceAllL
  rw [replaceAllGo_of_not_contains _ _ _ _ h]

/-- Updating one key does not change lookups at other keys. -/
theorem Dict.lookup_set_ne {α : Type} (d : Dict α) (key : String) (v : α)
    (n : String) (h : n ≠ key) :
    Dict.lookup (Dict.set d key v) n = Dict.lookup d n := by
  have hkn : key ≠ n := fun hk => h hk.symm
  induction d with
  | nil => simp [Dict.set, Dict.lookup, hkn]
  | cons e d ih =>
    obtain ⟨k0, v0⟩ := e
    by_cases hk : k0 = key
    · subst hk
      simp [Dict.set, Dict.lookup, hkn]
    · simp only [Dict.set, hk, if_false, Dict.lookup]
      by_cases hn : k0 = n
      · simp [hn]
      · simp [hn, ih]

/-- Lookup after `del`. -/
theorem Dict.lookup_erase {α : Type} (d : Dict α) (k n : String) :
    Dict.lookup (Dict.erase d k) n = if n = k then none else Dict.lookup d n := by
  induction d with
  | nil => by_cases h : n = k <;> simp [Dict.erase, Dict.lookup, h]
  | cons e d ih =>
    obtain ⟨k0, v0⟩ := e
    by_cases hk : k0 = k
    · subst hk
      by_cases hn : n = k0
      · subst hn
        simp [Dict.erase, Dict.lookup, ih]
      · have : k0 ≠ n := fun hq => hn hq.symm
        simp [Dict.erase, Dict.lookup, ih, hn, this]
    · by_cases hn : k0 = n <;> by_cases hnk : n = k <;>
        simp_all [Dict.erase, Dict.lookup, ih]

/-- Lookup after deleting every key in a list. -/
theorem Dict.lookup_erase_fold {α : Type} :
    ∀ (l : List String) (d : Dict α) (n : String),
      Dict.lookup (l.foldl (fun acc m => Dict.erase acc m) d) n =
        if n ∈ l then none else Dict.lookup d n := by
  intro l
  induction l with
  | nil => intro d n; simp
  | cons m l ih =>
    intro d n
    simp only [List.foldl_cons, ih, Dict.lookup_erase, List.mem_cons]
    by_cases h1 : n = m <;> by_cases h2 : n ∈ l <;> simp [h1, h2]

/-- Inversion for `Except.map` hitting `ok`. -/
theorem exceptMap_ok {ε α β : Type} (f : α → β) (x : Except ε α) (y : β)
    (h : Except.map f x = Except.ok y) : ∃ a, x = Except.ok a ∧ y = f a := by
  cases x with
  | error e => simp [Except.map] at h
  | ok a => simp only [Except.map, Except.ok.injEq] at h; exact ⟨a, rfl, h.symm⟩

/-- C1: the invariant fails — a service listed in the user-overrides set
of the Run Context is nevertheless deleted by the companion-service
removal that a Keycloak-family repair of another service triggers
(`_fix_keycloak_init` never consults the overrides). -/
theorem c1_override_companion_removed :
    ctxOverrideCompanion.config.overrides.contains "auth-init-prepare-write-dirs" = true ∧
    Dict.member svcsKeycloakFirst "auth-init-prepare-write-dirs" = true ∧
    Except.map (fun p => Dict.member p.1 "auth-init-prepare-write-dirs")
        (transform svcsKeycloakFirst ctxOverrideCompanion) =
      Except.ok false :=
  ⟨rfl, rfl, rfl⟩

/-- C2: the transform can raise on a well-formed Service Set, and its
outcome depends on insertion order — with the Keycloak service first the
companion init service is deleted mid-run and then looked up from the
name snapshot (`KeyError`), while the reverse insertion order completes
normally. -/
theorem c2_snapshot_lookup_raises :
    transform svcsKeycloakFirst ctxScenarioC =
      Except.error "KeyError: auth-init-prepare-write-dirs" ∧
    Except.map (fun p => Dict.keys p.1) (transform svcsInitFirst ctxScenarioC) =
      Except.ok ["auth-keycloak"] :=
  ⟨rfl, rfl⟩

/-- C5: end-to-end scenario A — `cache-redis-master` with a Bitnami
Redis image and secret `cache-redis` holding `redis-password: s3cret`
is rewritten to stock `redis:7-alpine` with the claimed command,
volumes, no entrypoint and no environment. -/
theorem c5_scenario_a :
    Except.map Prod.fst (transform svcsScenarioA ctxScenarioA) =
      Except.ok [("cache-redis-master",
        { image := some "redis:7-alpine",
          entrypoint := none,
          command := some ["redis-server", "--requirepass", "s3cret"],
          volumes := some ["./data/cache-redis-master:/data"],
          environment := none })] :=
  rfl

/-- C6: end-to-end scenario C is order-dependent because of the
snapshot-lookup bug — with `auth-keycloak` first in insertion order the
transform raises instead of producing the claimed result; with the
companion init service first it yields exactly the claimed environment
and removes the companion. -/
theorem c6_scenario_c_order :
    transform svcsKeycloakFirst ctxScenarioC =
      Except.error "KeyError: auth-init-prepare-write-dirs" ∧
    Except.map (fun p => Dict.lookup p.1 "auth-keycloak") (transform svcsInitFirst ctxScenarioC) =
      Except.ok (some { image := some "bitnami/keycloak:23",
                        environment := some [("KC_BOOTSTRAP_ADMIN_PASSWORD", "adminpw"),
                                             ("KC_DB_PASSWORD", "dbpw")] }) ∧
    Except.map (fun p => Dict.member p.1 "auth-init-prepare-write-dirs")
        (transform svcsInitFirst ctxScenarioC) =
      Except.ok false :=
  ⟨rfl, rfl, rfl⟩

/-- C7: the PostgreSQL-family repair replaces `volumes` with exactly the
two claimed entries in order and changes no other field. -/
theorem c7_postgresql_frame (svc_name : String) (svc : ServiceDef) (ctx : Ctx) :
    (fix_postgresql svc_name svc ctx).1.volumes =
      some [ctx.config.volume_root.getD "./data" ++ "/" ++ svc_name ++ ":/bitnami/postgresql",
            "./secrets/" ++ svc_name ++ ":/opt/bitnami/postgresql/secrets:ro"] ∧
    (fix_postgresql svc_name svc ctx).1.image = svc.image ∧
    (fix_postgresql svc_name svc ctx).1.entrypoint = svc.entrypoint ∧
    (fix_postgresql svc_name svc ctx).1.command = svc.command ∧
    (fix_postgresql svc_name svc ctx).1.environment = svc.environment :=
  ⟨rfl, rfl, rfl, rfl, rfl⟩

/-- Witness for C7 at spec scenario D: `db-postgresql` under the default
configuration. -/
theorem c7_postgresql_frame_witness :
    (fix_postgresql "db-postgresql" { image := some "bitnami/postgresql:16" } {}).1.volumes =
        some ["./data/db-postgresql:/bitnami/postgresql",
              "./secrets/db-postgresql:/opt/bitnami/postgresql/secrets:ro"] ∧
    (fix_postgresql "db-postgresql" { image := some "bitnami/postgresql:16" } {}).1.image =
        ({ image := some "bitnami/postgresql:16" } : ServiceDef).image ∧
    (fix_postgresql "db-postgresql" { image := some "bitnami/postgresql:16" } {}).1.entrypoint =
        ({ image := some "bitnami/postgresql:16" } : ServiceDef).entrypoint ∧
    (fix_postgresql "db-postgresql" { image := some "bitnami/postgresql:16" } {}).1.command =
        ({ image := some "bitnami/postgresql:16" } : ServiceDef).command ∧
    (fix_postgresql "db-postgresql" { image := some "bitnami/postgresql:16" } {}).1.environment =
        ({ image := some "bitnami/postgresql:16" } : ServiceDef).environment :=
  c7_postgresql_frame "db-postgresql" { image := some "bitnami/postgresql:16" } {}

/-- C3 counterexample: `a-master-b` ends in neither suffix, so the claim
says the stem is the name itself; the code removes the interior
`-master` occurrence and yields `a-b`. -/
theorem c3_counterexample :
    specSuffixStem "a-master-b" = "a-master-b" ∧
    redis_stem "a-master-b" = "a-b" ∧
    "a-b" ≠ "a-master-b" :=
  ⟨rfl, rfl, by decide⟩

/-- C4 counterexample: `"!!!"` contains no base64-alphabet character at
all, yet the lenient decoder discards the invalid characters and decodes
the rest (nothing) successfully — the lookup returns `""`, not the input
string unchanged. -/
theorem c4_counterexample :
    ("!!!".data.all (fun c => (b64charVal c).isNone)) = true ∧
    secret_value ⟨none, some [("k", "!!!")]⟩ "k" = some "" ∧
    some "" ≠ some "!!!" :=
  ⟨rfl, rfl, by decide⟩

/-- C3 (amended): the cache-family stem removes every occurrence of
`"-redis-master"` anywhere in the name, then every occurrence of
`"-master"` in the result (left to right, non-overlapping, both rules
applied in that order); a name containing neither fragment yields
itself. -/
theorem c3_amended_stem :
    (∀ s : String, subIn "-redis-master" s = false → subIn "-master" s = false →
        redis_stem s = s) ∧
    redis_stem "cache-redis-master" = "cache" ∧
    redis_stem "a-redis-master-b" = "a-b" ∧
    redis_stem "a-redis-master-master" = "a" := by
  refine ⟨?_, rfl, rfl, rfl⟩
  intro s h1 h2
  unfold redis_stem
  rw [pyReplace_of_not_contains _ _ _ h1, pyReplace_of_not_contains _ _ _ h2]

/-- Witness for the amended C3 statement at a concrete service name. -/
theorem c3_amended_stem_witness :
    subIn "-redis-master" "webapp" = false ∧
    subIn "-master" "webapp" = false ∧
    redis_stem "webapp" = "webapp" :=
  ⟨rfl, rfl, c3_amended_stem.1 "webapp" rfl rfl⟩

/-- C4 (amended): secret-value lookup consults the plaintext sub-mapping
first; failing that it consults the base64 sub-mapping and returns the
lenient decode when it succeeds and the raw encoded string when decoding
raises; a string outside the base64 grammar may still decode (after the
decoder discards its invalid characters) to a different string; if
neither sub-mapping has the key the result is absent. -/
theorem c4_amended_secret_value :
    (∀ (sec : SecretRecord) (key v : String),
        Dict.lookup (sec.stringData.getD []) key = some v →
        secret_value sec key = some v) ∧
    (∀ (sec : SecretRecord) (key v : String),
        Dict.lookup (sec.stringData.getD []) key = none →
        Dict.lookup (sec.data.getD []) key = some v →
        secret_value sec key = some ((b64decodeStr v).getD v)) ∧
    (∀ (sec : SecretRecord) (key : String),
        Dict.lookup (sec.stringData.getD []) key = none →
        Dict.lookup (sec.data.getD []) key = none →
        secret_value sec key = none) := by
  refine ⟨?_, ?_, ?_⟩
  · intro sec key v h
    unfold secret_value
    rw [h]
  · intro sec key v h1 h2
    unfold secret_value
    rw [h1, h2]
    cases hb : b64decodeStr v <;> simp [hb]
  · intro sec key h1 h2
    unfold secret_value
    rw [h1, h2]

/-- Witness for the amended C4 statement: plaintext hit, failing decode
(invalid UTF-8), succeeding decode, and a missing key. -/
theorem c4_amended_secret_value_witness :
    secret_value ⟨some [("k", "pw")], none⟩ "k" = some "pw" ∧
    secret_value ⟨none, some [("k", "/w==")]⟩ "k" = some "/w==" ∧
    secret_value ⟨none, some [("k", "aGVsbG8=")]⟩ "k" = some "hello" ∧
    secret_value ⟨none, none⟩ "k" = none :=
  ⟨c4_amended_secret_value.1 _ "k" "pw" rfl,
   c4_amended_secret_value.2.1 _ "k" "/w==" rfl rfl,
   c4_amended_secret_value.2.1 _ "k" "aGVsbG8=" rfl rfl,
   c4_amended_secret_value.2.2 _ "k" rfl rfl⟩

/-- C9: the secret resolver returns the first candidate present in the
store with its record, `none` exactly when no candidate is present; and
for service `app-redis-master` with secrets `app-redis` and `app` the
cache repair resolves `app-redis`, not `app`. -/
theorem c9_find_secret :
    (∀ (secrets : Dict SecretRecord) (cands : List String) (nm : String) (record : SecretRecord),
        find_secret secrets cands = some (nm, record) →
        Dict.lookup secrets nm = some record ∧
        ∃ pre suf, cands = pre ++ nm :: suf ∧ ∀ m ∈ pre, Dict.lookup secrets m = none) ∧
    (∀ (secrets : Dict SecretRecord) (cands : List String),
        find_secret secrets cands = none → ∀ m ∈ cands, Dict.lookup secrets m = none) ∧
    (∀ r1 r2 : SecretRecord,
        find_secret [("app-redis", r1), ("app", r2)] (redis_candidates "app-redis-master") =
          some ("app-redis", r1)) ∧
    (∀ svc : ServiceDef,
        (fix_redis "app-redis-master" svc
            { secrets := [("app-redis", ⟨some [("redis-password", "pw1")], none⟩),
                          ("app", ⟨some [("redis-password", "pw2")], none⟩)] }).1.command =
          some ["redis-server", "--requirepass", "pw1"]) := by
  refine ⟨?_, ?_, fun r1 r2 => rfl, fun svc => rfl⟩
  · intro secrets cands
    induction cands with
    | nil => intro nm record h; simp [find_secret] at h
    | cons c cs ih =>
      intro nm record h
      simp only [find_secret] at h
      cases hc : Dict.lookup secrets c with
      | some r =>
        rw [hc] at h
        obtain ⟨rfl, rfl⟩ : c = nm ∧ r = record := by
          constructor <;> [exact congrArg Prod.fst (Option.some.inj h);
            exact congrArg Prod.snd (Option.some.inj h)]
        exact ⟨hc, [], cs, rfl, by intro m hm; cases hm⟩
      | none =>
        rw [hc] at h
        obtain ⟨hl, pre, suf, hcands, hpre⟩ := ih nm record h
        refine ⟨hl, c :: pre, suf, by rw [hcands]; rfl, ?_⟩
        intro m hm
        rcases List.mem_cons.mp hm with hm | hm
        · rw [hm]; exact hc
        · exact hpre m hm
  · intro secrets cands
    induction cands with
    | nil => intro _ m hm; cases hm
    | cons c cs ih =>
      intro h m hm
      simp only [find_secret] at h
      cases hc : Dict.lookup secrets c with
      | some r => rw [hc] at h; cases h
      | none =>
        rw [hc] at h
        rcases List.mem_cons.mp hm with hm | hm
        · rw [hm]; exact hc
        · exact ih h m hm

/-- Witness for C9: resolution at a concrete store and candidate list. -/
theorem c9_find_secret_witness :
    Dict.lookup ctxScenarioC.secrets "keycloak-postgresql" =
      some ⟨some [("password", "dbpw")], none⟩ ∧
    ∃ pre suf, ["nope", "keycloak-postgresql"] = pre ++ "keycloak-postgresql" :: suf ∧
      ∀ m ∈ pre, Dict.lookup ctxScenarioC.secrets m = none :=
  c9_find_secret.1 ctxScenarioC.secrets ["nope", "keycloak-postgresql"] _ _ rfl

/-- The empty string is truthy-false (Python `if password:`). -/
theorem string_empty_isEmpty : "".isEmpty = true := rfl

/-- A resolved admin secret whose `admin-password` is `""` (or whose
record is the empty dict) leaves the admin step inert. -/
theorem keycloak_admin_step_skip (svc_name : String) (svc : ServiceDef) (ctx : Ctx)
    (nm : String) (sec : SecretRecord)
    (hfind : find_secret ctx.secrets (keycloak_admin_candidates svc_name) = some (nm, sec))
    (hcase : secret_value sec "admin-password" = some "" ∨ secretNonEmpty sec = false) :
    keycloak_admin_step svc_name svc ctx = (svc, []) := by
  unfold keycloak_admin_step
  rw [hfind]
  rcases hcase with hval | hempty
  · cases hne : secretNonEmpty sec
    · simp [hne]
    · simp [hne, hval, string_empty_isEmpty]
  · simp [hempty]

/-- A resolved database secret whose `password` is `""` (or whose record
is the empty dict) leaves the database step inert. -/
theorem keycloak_db_step_skip (svc_name : String) (svc : ServiceDef) (ctx : Ctx)
    (nm : String) (sec : SecretRecord)
    (hfind : find_secret ctx.secrets (keycloak_db_candidates svc_name) = some (nm, sec))
    (hcase : secret_value sec "password" = some "" ∨ secretNonEmpty sec = false) :
    keycloak_db_step svc_name svc ctx = (svc, []) := by
  unfold keycloak_db_step
  rw [hfind]
  rcases hcase with hval | hempty
  · cases hne : secretNonEmpty sec
    · simp [hne]
    · simp [hne, hval, string_empty_isEmpty]
  · simp [hempty]

/-- The database step never touches `KC_BOOTSTRAP_ADMIN_PASSWORD`. -/
theorem keycloak_db_step_other_key (svc_name : String) (svc : ServiceDef) (ctx : Ctx) :
    Dict.lookup ((keycloak_db_step svc_name svc ctx).1.environment.getD [])
        "KC_BOOTSTRAP_ADMIN_PASSWORD" =
      Dict.lookup (svc.environment.getD []) "KC_BOOTSTRAP_ADMIN_PASSWORD" := by
  unfold keycloak_db_step
  split
  · split
    · split
      · split
        · rfl
        · exact Dict.lookup_set_ne _ _ _ _ (by decide)
      · rfl
    · rfl
  · rfl

/-- The admin step never touches `KC_DB_PASSWORD`. -/
theorem keycloak_admin_step_other_key (svc_name : String) (svc : ServiceDef) (ctx : Ctx) :
    Dict.lookup ((keycloak_admin_step svc_name svc ctx).1.environment.getD [])
        "KC_DB_PASSWORD" =
      Dict.lookup (svc.environment.getD []) "KC_DB_PASSWORD" := by
  unfold keycloak_admin_step
  split
  · split
    · split
      · split
        · rfl
        · exact Dict.lookup_set_ne _ _ _ _ (by decide)
      · rfl
    · rfl
  · rfl

/-- C10: an empty-string secret value (or an empty secret record) makes
the repairs behave as if the value were absent — the cache repair runs
unauthenticated with the warning, and the identity repair sets neither
`KC_BOOTSTRAP_ADMIN_PASSWORD` nor `KC_DB_PASSWORD`. -/
theorem c10_empty_password :
    (∀ (svc_name : String) (svc : ServiceDef) (ctx : Ctx) (nm : String) (sec : SecretRecord),
        find_secret ctx.secrets (redis_candidates svc_name) = some (nm, sec) →
        (secret_value sec "redis-password" = some "" ∨ secretNonEmpty sec = false) →
        (fix_redis svc_name svc ctx).1.command = some ["redis-server"] ∧
        logLine (svc_name ++ ": ⚠ no redis-password found, running without auth")
          ∈ (fix_redis svc_name svc ctx).2) ∧
    (∀ (svc_name : String) (svc : ServiceDef) (ctx : Ctx) (nm : String) (sec : SecretRecord),
        find_secret ctx.secrets (keycloak_admin_candidates svc_name) = some (nm, sec) →
        (secret_value sec "admin-password" = some "" ∨ secretNonEmpty sec = false) →
        Dict.lookup ((fix_keycloak svc_name svc ctx).1.environment.getD [])
            "KC_BOOTSTRAP_ADMIN_PASSWORD" =
          Dict.lookup (svc.environment.getD []) "KC_BOOTSTRAP_ADMIN_PASSWORD") ∧
    (∀ (svc_name : String) (svc : ServiceDef) (ctx : Ctx) (nm : String) (sec : SecretRecord),
        find_secret ctx.secrets (keycloak_db_candidates svc_name) = some (nm, sec) →
        (secret_value sec "password" = some "" ∨ secretNonEmpty sec = false) →
        Dict.lookup ((fix_keycloak svc_name svc ctx).1.environment.getD [])
            "KC_DB_PASSWORD" =
          Dict.lookup (svc.environment.getD []) "KC_DB_PASSWORD") := by
  refine ⟨?_, ?_, ?_⟩
  · intro svc_name svc ctx nm sec hfind hcase
    unfold fix_redis
    rw [hfind]
    rcases hcase with hval | hempty
    · cases hne : secretNonEmpty sec
      · simp [hne]
      · simp [hne, hval, string_empty_isEmpty]
    · simp [hempty]
  · intro svc_name svc ctx nm sec hfind hcase
    have h1 := keycloak_admin_step_skip svc_name svc ctx nm sec hfind hcase
    simp only [fix_keycloak, h1]
    exact keycloak_db_step_other_key svc_name svc ctx
  · intro svc_name svc ctx nm sec hfind hcase
    have h2 := keycloak_db_step_skip svc_name ((keycloak_admin_step svc_name svc ctx).1) ctx
      nm sec hfind hcase
    simp only [fix_keycloak, h2]
    exact keycloak_admin_step_other_key svc_name svc ctx

/-- Witness for C10 at concrete secrets with empty password values and
an empty record. -/
theorem c10_empty_password_witness :
    (fix_redis "app-redis-master" svcRedisW ctxEmptyRedisPw).1.command =
      some ["redis-server"] ∧
    logLine ("app-redis-master" ++ ": ⚠ no redis-password found, running without auth")
      ∈ (fix_redis "app-redis-master" svcRedisW ctxEmptyRedisPw).2 ∧
    Dict.lookup ((fix_keycloak "auth-keycloak" svcKeycloakW ctxEmptyAdminPw).1.environment.getD [])
        "KC_BOOTSTRAP_ADMIN_PASSWORD" =
      Dict.lookup (svcKeycloakW.environment.getD []) "KC_BOOTSTRAP_ADMIN_PASSWORD" ∧
    Dict.lookup ((fix_keycloak "auth-keycloak" svcKeycloakW ctxEmptyDbRecord).1.environment.getD [])
        "KC_DB_PASSWORD" =
      Dict.lookup (svcKeycloakW.environment.getD []) "KC_DB_PASSWORD" :=
  ⟨(c10_empty_password.1 "app-redis-master" svcRedisW ctxEmptyRedisPw "app-redis"
      ⟨some [("redis-password", "")], none⟩ rfl (Or.inl rfl)).1,
   (c10_empty_password.1 "app-redis-master" svcRedisW ctxEmptyRedisPw "app-redis"
      ⟨some [("redis-password", "")], none⟩ rfl (Or.inl rfl)).2,
   c10_empty_password.2.1 "auth-keycloak" svcKeycloakW ctxEmptyAdminPw "auth-keycloak"
      ⟨some [("admin-password", "")], none⟩ rfl (Or.inl rfl),
   c10_empty_password.2.2 "auth-keycloak" svcKeycloakW ctxEmptyDbRecord "keycloak-postgresql"
      ⟨none, none⟩ rfl (Or.inr rfl)⟩

/-- C8 counterexample: the companion init service's image matches none
of the three families, yet the transform deletes it from the Service Set
during the Keycloak repair of another service. -/
theorem c8_counterexample :
    is_bitnami_image busyboxInit "redis" = false ∧
    is_bitnami_image busyboxInit "postgresql" = false ∧
    is_bitnami_image busyboxInit "keycloak" = false ∧
    Dict.lookup svcsInitFirst "auth-init-prepare-write-dirs" = some busyboxInit ∧
    Except.map (fun p => Dict.member p.1 "auth-init-prepare-write-dirs")
        (transform svcsInitFirst ctxScenarioC) =
      Except.ok false :=
  ⟨rfl, rfl, rfl, rfl, rfl⟩

/-- Unfolding of the service-set component of `fix_keycloak_init`. -/
theorem fix_keycloak_init_fst (svc_name : String) (cs : Dict ServiceDef) :
    (fix_keycloak_init svc_name cs).1 =
      ((Dict.keys cs).filter
          (fun n => subIn (pyReplace svc_name "-keycloak" "") n &&
            subIn "init-prepare-write-dirs" n)).foldl
        (fun acc n => Dict.erase acc n) cs := rfl

/-- A name absent from the Service Set stays absent through the rest of
the run (the loop only rewrites entries it found, and only deletes). -/
theorem transform_go_none_mono (ctx : Ctx) :
    ∀ (names : List String) (s out : Dict ServiceDef) (logs : List String) (n : String),
      transform_go ctx names s = Except.ok (out, logs) →
      Dict.lookup s n = none → Dict.lookup out n = none := by
  intro names
  induction names with
  | nil =>
    intro s out logs n h hn
    simp only [transform_go, Except.ok.injEq, Prod.mk.injEq] at h
    rw [← h.1]
    exact hn
  | cons m rest ih =>
    intro s out logs n h hn
    simp only [transform_go] at h
    split at h
    · exact ih s out logs n h hn
    · split at h
      · exact Except.noConfusion h
      · rename_i svcm heq
        have hnm : n ≠ m := by
          intro he
          rw [he, heq] at hn
          exact Option.noConfusion hn
        have hset : Dict.lookup (Dict.set s m (fix_redis m svcm ctx).1) n = none := by
          rw [Dict.lookup_set_ne _ _ _ _ hnm]; exact hn
        split at h
        · obtain ⟨a, hrec, hout⟩ := exceptMap_ok _ _ _ h
          obtain ⟨out1, logs1⟩ := a
          injection hout with hout1 hout2
          subst hout1
          exact ih _ _ _ n hrec hset
        · split at h
          · obtain ⟨a, hrec, hout⟩ := exceptMap_ok _ _ _ h
            obtain ⟨out1, logs1⟩ := a
            injection hout with hout1 hout2
            subst hout1
            refine ih _ _ _ n hrec ?_
            rw [Dict.lookup_set_ne _ _ _ _ hnm]; exact hn
          · split at h
            · obtain ⟨a, hrec, hout⟩ := exceptMap_ok _ _ _ h
              obtain ⟨out1, logs1⟩ := a
              injection hout with hout1 hout2
              subst hout1
              refine ih _ _ _ n hrec ?_
              rw [fix_keycloak_init_fst, Dict.lookup_erase_fold]
              have : Dict.lookup (Dict.set s m (fix_keycloak m svcm ctx).1) n = none := by
                rw [Dict.lookup_set_ne _ _ _ _ hnm]; exact hn
              split <;> simp [this]
            · exact ih s out logs n h hn

/-- Loop-level frame property behind the amended C8: a service whose
image matches no family is left untouched, and can only disappear by
matching the keycloak companion pattern, whose filter requires the
`init-prepare-write-dirs` marker in the name. -/
theorem transform_go_frame (ctx : Ctx) (n : String) (svc : ServiceDef)
    (hr : is_bitnami_image svc "redis" = false)
    (hp : is_bitnami_image svc "postgresql" = false)
    (hk : is_bitnami_image svc "keycloak" = false) :
    ∀ (names : List String) (s out : Dict ServiceDef) (logs : List String),
      transform_go ctx names s = Except.ok (out, logs) →
      Dict.lookup s n = some svc →
      Dict.lookup out n = some svc ∨
        (Dict.lookup out n = none ∧ subIn "init-prepare-write-dirs" n = true) := by
  intro names
  induction names with
  | nil =>
    intro s out logs h hl
    simp only [transform_go, Except.ok.injEq, Prod.mk.injEq] at h
    rw [← h.1]
    exact Or.inl hl
  | cons m rest ih =>
    intro s out logs h hl
    simp only [transform_go] at h
    split at h
    · exact ih s out logs h hl
    · split at h
      · exact Except.noConfusion h
      · rename_i svcm heq
        by_cases hnm : n = m
        · have hsv : svcm = svc := by
            rw [← hnm, hl] at heq
            exact (Option.some.inj heq).symm
          subst hsv
          simp only [hr, hp, hk, Bool.false_eq_true, if_false] at h
          exact ih s out logs h hl
        · split at h
          · obtain ⟨a, hrec, hout⟩ := exceptMap_ok _ _ _ h
            obtain ⟨out1, logs1⟩ := a
            injection hout with hout1 hout2
            subst hout1
            refine ih _ _ _ hrec ?_
            rw [Dict.lookup_set_ne _ _ _ _ hnm]; exact hl
          · split at h
            · obtain ⟨a, hrec, hout⟩ := exceptMap_ok _ _ _ h
              obtain ⟨out1, logs1⟩ := a
              injection hout with hout1 hout2
              subst hout1
              refine ih _ _ _ hrec ?_
              rw [Dict.lookup_set_ne _ _ _ _ hnm]; exact hl
            · split at h
              · obtain ⟨a, hrec, hout⟩ := exceptMap_ok _ _ _ h
                obtain ⟨out1, logs1⟩ := a
                injection hout with hout1 hout2
                subst hout1
                have hl2 : Dict.lookup (Dict.set s m (fix_keycloak m svcm ctx).1) n = some svc := by
                  rw [Dict.lookup_set_ne _ _ _ _ hnm]; exact hl
                by_cases hmem : n ∈ (Dict.keys (Dict.set s m (fix_keycloak m svcm ctx).1)).filter
                    (fun q => subIn (pyReplace m "-keycloak" "") q &&
                      subIn "init-prepare-write-dirs" q)
                · right
                  have hnone : Dict.lookup
                      (fix_keycloak_init m (Dict.set s m (fix_keycloak m svcm ctx).1)).1 n = none := by
                    rw [fix_keycloak_init_fst, Dict.lookup_erase_fold]
                    simp [hmem]
                  refine ⟨transform_go_none_mono ctx rest _ _ _ n hrec hnone, ?_⟩
                  have hpred := (List.mem_filter.mp hmem).2
                  exact (Bool.and_eq_true _ _ |>.mp hpred).2
                · have hsome : Dict.lookup
                      (fix_keycloak_init m (Dict.set s m (fix_keycloak m svcm ctx).1)).1 n = some svc := by
                    rw [fix_keycloak_init_fst, Dict.lookup_erase_fold]
                    simp [hmem, hl2]
                  exact ih _ _ _ hrec hsome
              · exact ih s out logs h hl

/-- C8 (amended): a service whose image matches none of the three
families is never mutated — its record is unchanged wherever the
transform completes — and it stays in the Service Set unless it is
deleted as a Keycloak companion, which requires its name to contain
`init-prepare-write-dirs`. -/
theorem c8_amended_frame (ctx : Ctx) (s out : Dict ServiceDef) (logs : List String)
    (n : String) (svc : ServiceDef)
    (h : transform s ctx = Except.ok (out, logs))
    (hl : Dict.lookup s n = some svc)
    (hr : is_bitnami_image svc "redis" = false)
    (hp : is_bitnami_image svc "postgresql" = false)
    (hk : is_bitnami_image svc "keycloak" = false) :
    Dict.lookup out n = some svc ∨
      (Dict.lookup out n = none ∧ subIn "init-prepare-write-dirs" n = true) :=
  transform_go_frame ctx n svc hr hp hk (Dict.keys s) s out logs h hl

/-- Witness for the amended C8 at a one-service set with a stock image. -/
theorem c8_amended_frame_witness :
    Dict.lookup [("web", ({ image := some "nginx:1" } : ServiceDef))] "web" =
        some { image := some "nginx:1" } ∨
      (Dict.lookup [("web", ({ image := some "nginx:1" } : ServiceDef))] "web" = none ∧
        subIn "init-prepare-write-dirs" "web" = true) :=
  c8_amended_frame {} [("web", { image := some "nginx:1" })]
    [("web", { image := some "nginx:1" })] [] "web" { image := some "nginx:1" }
    rfl rfl rfl rfl rfl

end Bitnami
